import Mathlib

/-!
Verification of the defi-flow plotting scripts.

Shallow embedding of the two scripts `src/scripts/plot_backtest.py` and
`src/scripts/plot_allocations.py`. Python floats are modelled by `ℚ`
(the properties at stake are control flow and exact algebra, not
rounding). Python exceptions (IndexError on `tvls[0]`, ZeroDivisionError
on `x / 0.0`) are modelled by `Except` / `Option` error values; writing
an image file is modelled by returning the artifact's file name.
-/

namespace DefiFlow

/-! ## Data model: Backtest Result JSON (plot_backtest.py) -/

/-- One point of a trajectory: `{timestamp, tvl}`. -/
structure TrajPoint where
  timestamp : Int
  tvl : ℚ
deriving Repr, DecidableEq

/-- The `historical` object of the backtest JSON. -/
structure Historical where
  label : String
  trajectory : List TrajPoint
  twrr_pct : ℚ
  annualized_pct : ℚ
  max_drawdown_pct : ℚ
  sharpe : ℚ
  funding_pnl : ℚ
  lending_interest : ℚ
  rewards_pnl : ℚ
  premium_pnl : ℚ
  lp_fees : ℚ
  swap_costs : ℚ
  net_pnl : ℚ
deriving Repr, DecidableEq

/-- One Monte Carlo simulation record. A missing `trajectory` key is read
with `s.get("trajectory", [])`, i.e. it defaults to the empty list, so the
field is total here. -/
structure Simulation where
  trajectory : List TrajPoint
  twrr_pct : ℚ
  max_drawdown_pct : ℚ
  sharpe : ℚ
deriving Repr, DecidableEq

/-- The `monte_carlo` object of the backtest JSON. -/
structure MonteCarlo where
  n_simulations : Nat
  simulations : List Simulation
deriving Repr, DecidableEq

/-- The whole backtest JSON. `data.get("monte_carlo")` yields `None` both
when the key is absent and when it is JSON `null`; both are `none` here. -/
structure BacktestData where
  historical : Historical
  monteCarlo : Option MonteCarlo
deriving Repr, DecidableEq

/-! ## Trajectory derivations (plot_backtest.py, plot_trajectory) -/

/-- `plot_backtest.py` line 66: `pnl_pct = (final_tvl / tvls[0] - 1) * 100`.
There is no guard: Python raises ZeroDivisionError when `tvls[0]` is `0.0`
(modelled as `none`) and otherwise divides, whatever the sign. -/
def trajPnlPct (initialTvl finalTvl : ℚ) : Option ℚ :=
  if initialTvl = 0 then none else some ((finalTvl / initialTvl - 1) * 100)

/-- `plot_backtest.py` lines 38-42: the loop collecting, from each
simulation whose trajectory has at least `nTicks` points, the TVLs of its
first `nTicks` points. -/
def simMatrix (sims : List Simulation) (nTicks : Nat) : List (List ℚ) :=
  sims.filterMap (fun s =>
    if nTicks ≤ s.trajectory.length
    then some ((s.trajectory.take nTicks).map TrajPoint.tvl)
    else none)

/-- `np.percentile(_, q)` with the default linear interpolation: on the
sorted values `v_0 ≤ ... ≤ v_(m-1)`, with `h = q*(m-1)/100`, the result is
`v_lo + (h - lo) * (v_(lo+1) - v_lo)` where `lo = ⌊h⌋`. -/
def percentile (q : ℚ) (xs : List ℚ) : ℚ :=
  let sorted := List.insertionSort (fun a b => a ≤ b) xs
  match sorted with
  | [] => 0
  | _ =>
    let m := sorted.length
    let h : ℚ := q * ((m : ℚ) - 1) / 100
    let lo : Nat := (⌊h⌋).toNat
    let g : ℚ := h - (⌊h⌋ : ℚ)
    let vlo := sorted.getD lo 0
    let vhi := sorted.getD (lo + 1) vlo
    vlo + g * (vhi - vlo)

/-- Column `j` of the simulation matrix (percentiles are taken per tick
index, i.e. with `axis=0`). -/
def column (M : List (List ℚ)) (j : Nat) : List ℚ :=
  M.map (fun row => row.getD j 0)

/-- The four percentile band series of `plot_backtest.py` lines 45-48. -/
structure Bands where
  p5 : List ℚ
  p25 : List ℚ
  p75 : List ℚ
  p95 : List ℚ
deriving Repr, DecidableEq

/-- `plot_backtest.py` lines 43-50: the bands are computed and drawn only
when `sim_matrix` is non-empty; otherwise they are omitted (`none`),
without error. -/
def confBands (sims : List Simulation) (nTicks : Nat) : Option Bands :=
  let M := simMatrix sims nTicks
  if M.isEmpty then none
  else
    some
      { p5 := (List.range nTicks).map (fun j => percentile 5 (column M j))
        p25 := (List.range nTicks).map (fun j => percentile 25 (column M j))
        p75 := (List.range nTicks).map (fun j => percentile 75 (column M j))
        p95 := (List.range nTicks).map (fun j => percentile 95 (column M j)) }

/-- `plot_backtest.py` lines 33-34: the band block runs only under
`if mc and mc["simulations"]:`. -/
def trajectoryBands (data : BacktestData) : Option Bands :=
  match data.monteCarlo with
  | none => none
  | some mc =>
    if mc.simulations.isEmpty then none
    else confBands mc.simulations data.historical.trajectory.length

/-- The two ways `plot_trajectory` can raise: IndexError on `tvls[0]`
(line 53) when the trajectory is empty, ZeroDivisionError on
`final_tvl / tvls[0]` (line 66) when the initial TVL is `0.0`. -/
inductive TrajErr where
  | indexError
  | zeroDivisionError
deriving Repr, DecidableEq

/-- What a successful `plot_trajectory` run produced: the saved artifact
name, the confidence bands it drew (if any), the dashed baseline at
`tvls[0]`, the final TVL, and the percentage of line 66. -/
structure TrajOutput where
  artifact : String
  bands : Option Bands
  baseline : ℚ
  finalTvl : ℚ
  pnlPct : ℚ
deriving Repr, DecidableEq

/-- `plot_backtest.py` lines 23-95 (`plot_trajectory`): bands are computed
first (lines 33-50, total), then `tvls[0]` is accessed (line 53: IndexError
on an empty trajectory), then `(final_tvl / tvls[0] - 1) * 100` (line 66:
ZeroDivisionError when `tvls[0] = 0`), and finally `trajectory.png` is
saved. -/
def plot_trajectory (data : BacktestData) : Except TrajErr TrajOutput :=
  let tvls := data.historical.trajectory.map TrajPoint.tvl
  let bands := trajectoryBands data
  match tvls.head?, tvls.getLast? with
  | some t0, some tlast =>
    match trajPnlPct t0 tlast with
    | none => Except.error TrajErr.zeroDivisionError
    | some pct =>
      Except.ok
        { artifact := "trajectory.png"
          bands := bands
          baseline := t0
          finalTvl := tlast
          pnlPct := pct }
  | _, _ => Except.error TrajErr.indexError

/-! ## PnL breakdown (plot_backtest.py, plot_pnl_breakdown) -/

/-- The six PnL categories as stored in the `historical` object, in the
order the bar chart reads them. -/
def pnlCategoriesStored (h : Historical) : List ℚ :=
  [h.funding_pnl, h.lending_interest, h.rewards_pnl, h.premium_pnl,
   h.lp_fees, h.swap_costs]

/-- `plot_backtest.py` lines 102-109: the `values` list of the bar chart.
Only `swap_costs` is negated ("costs are positive, flip for net view"). -/
def pnlBarValues (h : Historical) : List ℚ :=
  [h.funding_pnl, h.lending_interest, h.rewards_pnl, h.premium_pnl,
   h.lp_fees, -h.swap_costs]

/-- `plot_pnl_breakdown` always saves `pnl_breakdown.png` with the bar
values above. -/
def plot_pnl_breakdown (data : BacktestData) : String × List ℚ :=
  ("pnl_breakdown.png", pnlBarValues data.historical)

/-- `plot_backtest.py` lines 147-150 (`plot_mc_distribution`): returns
without saving anything when `monte_carlo` is `None` or its `simulations`
list is empty; otherwise saves `mc_distributions.png`. -/
def plot_mc_distribution (data : BacktestData) : Option String :=
  match data.monteCarlo with
  | none => none
  | some mc =>
    if mc.simulations.isEmpty then none else some "mc_distributions.png"

/-- `plot_backtest.py` `main` (lines 200-204): runs the three plotting
steps in order; the list of artifact file names written, or the first
error. -/
def mainArtifacts (data : BacktestData) : Except TrajErr (List String) :=
  match plot_trajectory data with
  | Except.error e => Except.error e
  | Except.ok t =>
    Except.ok ([t.artifact, (plot_pnl_breakdown data).1]
      ++ (plot_mc_distribution data).toList)

/-! ## Data model: tick CSV (plot_allocations.py)

`csv.DictReader` turns each data row into a mapping whose keys are the
header's field names (a dict, so the key list has no duplicates); with a
header-only file it yields zero rows. A parsed tick row holds the
`timestamp` and `tvl` columns and the venue columns as an association
list. -/

/-- `plot_allocations.py` lines 21-27 (`load_csv`): pair each data row
with the header; zero data rows give the empty record set. -/
def load_csv (header : List String) (dataRows : List (List String)) :
    List (List (String × String)) :=
  dataRows.map (fun r => header.zip r)

/-- One parsed tick record. -/
structure TickRow where
  timestamp : Int
  tvl : ℚ
  venues : List (String × ℚ)
deriving Repr, DecidableEq

/-- `float(r[col])` for a venue column (all rows share the header's
columns, so the lookup is backed by that invariant). -/
def venueValue (r : TickRow) (col : String) : ℚ :=
  (((r.venues.find? (fun p => p.1 = col)).map Prod.snd)).getD 0

/-- `plot_allocations.py` line 45: venue columns are all tabular columns
except `timestamp` and `tvl`, in header order. -/
def venueColsFrom (header : List String) : List String :=
  header.filter (fun k => ¬ (k = "timestamp" ∨ k = "tvl"))

/-- `plot_allocations.py` line 88: the fixed stacking preference list. -/
def stackPreference : List String :=
  ["buy_eth", "lend_eth", "short_eth", "lend_idle", "lend_usdc"]

/-- `plot_allocations.py` lines 89-93: the preference-list columns that
are present, in preference order, then every remaining venue column in
first-seen order (the source appends while testing membership in the
growing list, hence the fold). -/
def orderVenueCols (venue_cols : List String) : List String :=
  venue_cols.foldl (fun acc c => if c ∈ acc then acc else acc ++ [c])
    (stackPreference.filter (fun c => c ∈ venue_cols))

/-- `plot_allocations.py` lines 96-104: the title heuristic used when no
override is given. -/
def autoTitle (venue_cols : List String) : String :=
  if "lend_eth" ∈ venue_cols then
    "v2: ETH Lending + Short Perp + USDC Lending  (group-aware rebalance)"
  else if "buy_eth" ∈ venue_cols then
    "v1: Spot ETH + Short Perp + USDC Lending  (group-aware rebalance)"
  else "Backtest Allocations"

/-- `plot_allocations.py` line 140: the final-vs-initial annotation,
`(final/initial - 1) * 100 if initial > 0 else 0` — the whole percentage
is set to `0` on a non-positive initial TVL. -/
def allocPnlPct (initialTvl finalTvl : ℚ) : ℚ :=
  if 0 < initialTvl then (finalTvl / initialTvl - 1) * 100 else 0

/-- `plot_allocations.py` line 150: `np.maximum(np.array(tvl), 1.0)`,
applied pointwise. -/
def flooredBase (t : ℚ) : ℚ := max t 1

/-- `plot_allocations.py` line 154: `pcts = vals / tvl_arr * 100`,
elementwise over the floored TVL array. -/
def venuePcts (vals tvl : List ℚ) : List ℚ :=
  List.zipWith (fun v t => v / flooredBase t * 100) vals tvl

/-- The total stacked percentage at one tick: the venue values `vs` at
that tick, each divided by the floored TVL `t` and scaled to percent,
summed (the height `bottom` reaches in the panel-3 loop, lines 151-158). -/
def tickPctTotal (vs : List ℚ) (t : ℚ) : ℚ :=
  (vs.map (fun v => v / flooredBase t * 100)).sum

/-- Everything the allocation chart derives from a non-empty record set. -/
structure AllocDerived where
  venue_cols : List String
  venue_cols_ordered : List String
  chartTitle : String
  tvl : List ℚ
  pnl_pct : ℚ
  pcts : List (List ℚ)
deriving Repr, DecidableEq

/-- Outcome of `plot`: either the early "No tick data found" return (a
printed notice, no file written, no exception), or a saved image at
`output` with the derived series. -/
inductive AllocResult where
  | noData
  | saved (output : String) (derived : AllocDerived)
deriving Repr, DecidableEq

/-- `plot_allocations.py` lines 34-170 (`plot`), derivation part: the
empty-record-set short circuit (lines 36-38), venue columns (line 45),
stacking order (lines 88-93), title heuristic (lines 96-104), PnL
annotation (lines 138-140) and percentage series (lines 150-158). -/
def plot (header : List String) (ticks : List TickRow) (output : String)
    (titleArg : Option String) : AllocResult :=
  if ticks.isEmpty then AllocResult.noData
  else
    let tvl := ticks.map TickRow.tvl
    let venue_cols := venueColsFrom header
    let ordered := orderVenueCols venue_cols
    let title := titleArg.getD (autoTitle venue_cols)
    let pnl := allocPnlPct (tvl.headD 0) (tvl.getLastD 0)
    AllocResult.saved output
      { venue_cols := venue_cols
        venue_cols_ordered := ordered
        chartTitle := title
        tvl := tvl
        pnl_pct := pnl
        pcts := ordered.map (fun col =>
          venuePcts (ticks.map (fun r => venueValue r col)) tvl) }

/-! ## Concrete fixtures (used by witnesses) -/

/-- A small concrete `historical` object. -/
def demoHist : Historical :=
  { label := "demo"
    trajectory := [⟨0, 1000⟩, ⟨3600, 1100⟩, ⟨7200, 1050⟩]
    twrr_pct := 5
    annualized_pct := 12
    max_drawdown_pct := 3
    sharpe := 1
    funding_pnl := 10
    lending_interest := 20
    rewards_pnl := 5
    premium_pnl := 2
    lp_fees := 3
    swap_costs := 4
    net_pnl := 36 }

/-- A simulation with a single-point trajectory (too short for a
three-tick historical series). -/
def demoSimShort : Simulation :=
  { trajectory := [⟨0, 1000⟩]
    twrr_pct := 1
    max_drawdown_pct := 2
    sharpe := 1 }

/-- A backtest JSON with an empty historical trajectory and no Monte
Carlo data. -/
def emptyTrajData : BacktestData :=
  { historical := { demoHist with trajectory := [] }
    monteCarlo := none }

/-- A well-formed backtest JSON without Monte Carlo data. -/
def demoDataNoMC : BacktestData :=
  { historical := demoHist, monteCarlo := none }

/-- A backtest JSON whose `monte_carlo` object is present but carries an
empty `simulations` list. -/
def demoDataEmptyMC : BacktestData :=
  { historical := demoHist
    monteCarlo := some { n_simulations := 0, simulations := [] } }

/-! ## Helper lemmas -/

/-- Summing `v / b * 100` over a list factors through the list sum. -/
theorem sum_map_div_mul (vs : List ℚ) (b : ℚ) :
    (vs.map (fun v => v / b * 100)).sum = vs.sum / b * 100 := by
  induction vs with
  | nil => simp
  | cons a l ih => simp [ih, add_div, add_mul]

/-- The collection loop of `simMatrix` is the filter of the sufficiently
long simulations, each truncated to the first `n` ticks. -/
theorem simMatrix_eq_filter (sims : List Simulation) (n : Nat) :
    simMatrix sims n
      = (sims.filter (fun s => n ≤ s.trajectory.length)).map
          (fun s => (s.trajectory.take n).map TrajPoint.tvl) := by
  induction sims with
  | nil => rfl
  | cons s rest ih =>
    by_cases h : n ≤ s.trajectory.length
    · simp [simMatrix, List.filterMap_cons, List.filter_cons, h] at ih ⊢
      exact ih
    · simp [simMatrix, List.filterMap_cons, List.filter_cons, h] at ih ⊢
      exact ih

/-- Folding the append-if-new step over a duplicate-free list appends
exactly the elements missing from the accumulator, in list order. -/
theorem foldl_dedup_append (l : List String) :
    ∀ init : List String, l.Nodup →
      l.foldl (fun acc c => if c ∈ acc then acc else acc ++ [c]) init
        = init ++ l.filter (fun c => c ∉ init) := by
  induction l with
  | nil => intro init _; simp
  | cons a l ih =>
    intro init hnd
    rw [List.nodup_cons] at hnd
    obtain ⟨ha, hl⟩ := hnd
    by_cases h : a ∈ init
    · rw [List.foldl_cons, if_pos h, ih init hl, List.filter_cons]
      simp [h]
    · rw [List.foldl_cons, if_neg h, ih (init ++ [a]) hl, List.filter_cons]
      have hfilter : l.filter (fun c => c ∉ init ++ [a])
          = l.filter (fun c => c ∉ init) := by
        apply List.filter_congr
        intro x hx
        have hxa : x ≠ a := fun e => ha (e ▸ hx)
        simp [List.mem_append, hxa]
      rw [hfilter]
      simp [h]

/-! ## Claim theorems -/

/-- C1 counterexample: at an initial TVL of `0`, the trajectory pipeline
does not treat the ratio as zero — it divides and raises
(ZeroDivisionError, modelled as `none`); and the allocation pipeline
yields annotation `0`, not the `(0 - 1) * 100 = -100` that a
ratio-treated-as-zero policy would give. -/
theorem c1_counterexample :
    trajPnlPct 0 100 = none
      ∧ allocPnlPct 0 100 ≠ ((0 : ℚ) - 1) * 100 := by
  constructor
  · rfl
  · norm_num [allocPnlPct]

/-- C1 (amended): the allocation pipeline computes
`(final/initial - 1) * 100` when the initial TVL is positive and sets the
whole percentage to `0` (not the ratio) when it is non-positive; the
trajectory pipeline has no guard: it divides unconditionally, raising a
division error exactly when the initial TVL is `0`. -/
theorem c1_pnl_pct_policy (t0 tlast : ℚ) :
    (0 < t0 → allocPnlPct t0 tlast = (tlast / t0 - 1) * 100)
      ∧ (t0 ≤ 0 → allocPnlPct t0 tlast = 0)
      ∧ (trajPnlPct t0 tlast = none ↔ t0 = 0)
      ∧ (t0 ≠ 0 → trajPnlPct t0 tlast = some ((tlast / t0 - 1) * 100)) := by
  refine ⟨?_, ?_, ?_, ?_⟩
  · intro h; rw [allocPnlPct, if_pos h]
  · intro h; rw [allocPnlPct, if_neg (not_lt.mpr h)]
  · constructor
    · intro h
      by_contra hne
      rw [trajPnlPct, if_neg hne] at h
      exact Option.noConfusion h
    · intro h; rw [trajPnlPct, if_pos h]
  · intro h; rw [trajPnlPct, if_neg h]

/-- Witness for `c1_pnl_pct_policy` at initial TVL `2`, final TVL `5`. -/
theorem c1_pnl_pct_policy_witness :
    allocPnlPct 2 5 = ((5 : ℚ) / 2 - 1) * 100
      ∧ trajPnlPct 2 5 = some (((5 : ℚ) / 2 - 1) * 100) :=
  ⟨(c1_pnl_pct_policy 2 5).1 (by norm_num),
   (c1_pnl_pct_policy 2 5).2.2.2 (by norm_num)⟩

/-- C3: each venue's percentage at tick `i` is the venue value divided by
the TVL clamped to a floor of `1`, times `100`; the division base is
always at least `1`, so the computation is defined even at zero or
negative TVL. -/
theorem c3_floored_percentage (vals tvl : List ℚ) (i : Nat)
    (h1 : i < vals.length) (h2 : i < tvl.length) :
    (venuePcts vals tvl)[i]? = some (vals[i] / max tvl[i] 1 * 100)
      ∧ 1 ≤ flooredBase tvl[i] := by
  constructor
  · rw [venuePcts, List.getElem?_zipWith]
    rw [List.getElem?_eq_getElem h1, List.getElem?_eq_getElem h2]
    rfl
  · exact le_max_right _ _

/-- Witness for `c3_floored_percentage`: venue values `[50, 7]`, TVLs
`[200, 0]`; at tick `1` the zero TVL is floored to `1`. -/
theorem c3_floored_percentage_witness :
    (venuePcts [50, 7] [200, 0])[1]? = some ((7 : ℚ) / max 0 1 * 100)
      ∧ 1 ≤ flooredBase (0 : ℚ) := by
  have h := c3_floored_percentage [50, 7] [200, 0] 1 (by norm_num) (by norm_num)
  simpa using h

/-- C4: at any tick where the raw venue values sum to the tick's TVL (the
stacking invariant), the stacked percentages sum to at most `100`; a sum
above `100` would force the floor to have been applied (`t < 1`) with raw
values summing above the floor. -/
theorem c4_stack_le_100 (vs : List ℚ) (t : ℚ) (hstack : vs.sum = t) :
    tickPctTotal vs t ≤ 100
      ∧ (100 < tickPctTotal vs t → t < 1 ∧ 1 < vs.sum) := by
  have key : tickPctTotal vs t = t / max t 1 * 100 := by
    rw [tickPctTotal, sum_map_div_mul, hstack]; rfl
  have hle : tickPctTotal vs t ≤ 100 := by
    rw [key]
    rcases le_or_lt 1 t with h | h
    · rw [max_eq_left h, div_self (by positivity), one_mul]
    · rw [max_eq_right h.le, div_one]
      nlinarith
  exact ⟨hle, fun habs => absurd hle (not_le.mpr habs)⟩

/-- Witness for `c4_stack_le_100`: venue values `[30, 70]`, TVL `100`. -/
theorem c4_stack_le_100_witness :
    tickPctTotal [(30 : ℚ), 70] 100 ≤ 100 :=
  (c4_stack_le_100 [(30 : ℚ), 70] 100 (by norm_num)).1

/-- C5: a header-only CSV loads to the empty record set, and on an empty
record set the allocation pipeline returns the no-data outcome (a printed
notice, no output file, no exception), whatever the other arguments. -/
theorem c5_empty_ticks_no_output (header : List String) (output : String)
    (titleArg : Option String) :
    load_csv header [] = []
      ∧ plot header [] output titleArg = AllocResult.noData :=
  ⟨rfl, rfl⟩

/-- C7: the bar chart passes the first five stored PnL categories through
unchanged and negates exactly the sixth, `swap_costs`. -/
theorem c7_swap_costs_negated (h : Historical) :
    (pnlBarValues h).length = 6
      ∧ (∀ i, i < 5 → (pnlBarValues h)[i]? = (pnlCategoriesStored h)[i]?)
      ∧ (pnlBarValues h)[5]? = some (-h.swap_costs) := by
  refine ⟨rfl, ?_, rfl⟩
  intro i hi
  interval_cases i <;> rfl

/-- Witness for `c7_swap_costs_negated` on the demo `historical`. -/
theorem c7_swap_costs_negated_witness :
    (pnlBarValues demoHist)[0]? = (pnlCategoriesStored demoHist)[0]?
      ∧ (pnlBarValues demoHist)[5]? = some (-demoHist.swap_costs) :=
  ⟨(c7_swap_costs_negated demoHist).2.1 0 (by norm_num),
   (c7_swap_costs_negated demoHist).2.2⟩

/-- C2: the simulation matrix contains exactly the simulations with at
least `n` ticks, each contributing only its first `n` ticks; the bands
are omitted (`none`, no error) precisely when no simulation qualifies,
and when they exist each band series is the per-tick-index percentile
over the matrix columns. -/
theorem c2_band_participation (sims : List Simulation) (n : Nat) :
    simMatrix sims n
        = (sims.filter (fun s => n ≤ s.trajectory.length)).map
            (fun s => (s.trajectory.take n).map TrajPoint.tvl)
      ∧ (confBands sims n = none ↔ ∀ s ∈ sims, s.trajectory.length < n)
      ∧ (∀ b, confBands sims n = some b →
          b.p5 = (List.range n).map (fun j => percentile 5 (column (simMatrix sims n) j))
            ∧ b.p95 = (List.range n).map (fun j => percentile 95 (column (simMatrix sims n) j))) := by
  have hnil : simMatrix sims n = [] ↔ ∀ s ∈ sims, s.trajectory.length < n := by
    rw [simMatrix_eq_filter]
    simp [List.filter_eq_nil_iff, not_le]
  refine ⟨simMatrix_eq_filter sims n, ?_, ?_⟩
  · rw [confBands]
    by_cases h : (simMatrix sims n).isEmpty
    · simp only [h, if_true]
      rw [List.isEmpty_iff] at h
      exact iff_of_true trivial (hnil.mp h)
    · simp only [h]
      rw [List.isEmpty_iff] at h
      simp [h, hnil]
      have h2 : ¬ ∀ s ∈ sims, s.trajectory.length < n :=
        fun hall => h (hnil.mpr hall)
      push_neg at h2
      exact h2
  · intro b hb
    rw [confBands] at hb
    by_cases h : (simMatrix sims n).isEmpty
    · simp [h] at hb
    · simp only [h, if_neg, Bool.false_eq_true, if_false, Option.some.injEq] at hb
      exact ⟨by rw [← hb], by rw [← hb]⟩

/-- Witness for `c2_band_participation`: with one too-short simulation
and a three-tick historical series, no simulation qualifies and the bands
are omitted. -/
theorem c2_band_participation_witness :
    confBands [demoSimShort] 3 = none :=
  (c2_band_participation [demoSimShort] 3).2.1.mpr (by decide)

/-- C8: the venue columns are exactly the header columns other than
`timestamp` and `tvl`; the stacked order is the present preference-list
columns in preference order followed by the remaining venue columns in
first-seen order, and it is a permutation of the venue columns. -/
theorem c8_venue_columns_and_order (header : List String)
    (hnd : header.Nodup) :
    (∀ k, k ∈ venueColsFrom header
        ↔ k ∈ header ∧ k ≠ "timestamp" ∧ k ≠ "tvl")
      ∧ orderVenueCols (venueColsFrom header)
          = stackPreference.filter (fun c => c ∈ venueColsFrom header)
            ++ (venueColsFrom header).filter
                (fun c => c ∉ stackPreference.filter
                  (fun c2 => c2 ∈ venueColsFrom header))
      ∧ (orderVenueCols (venueColsFrom header)).Perm
          (venueColsFrom header) := by
  have hvnd : (venueColsFrom header).Nodup := List.Nodup.filter _ hnd
  have heq : orderVenueCols (venueColsFrom header)
      = stackPreference.filter (fun c => c ∈ venueColsFrom header)
        ++ (venueColsFrom header).filter
            (fun c => c ∉ stackPreference.filter
              (fun c2 => c2 ∈ venueColsFrom header)) := by
    rw [orderVenueCols]
    exact foldl_dedup_append _ _ hvnd
  refine ⟨?_, heq, ?_⟩
  · intro k
    simp [venueColsFrom, List.mem_filter, and_assoc]
  · rw [heq]
    have hpnd : (stackPreference.filter
        (fun c => c ∈ venueColsFrom header)).Nodup :=
      List.Nodup.filter _ (by decide)
    have hrnd : ((venueColsFrom header).filter
        (fun c => c ∉ stackPreference.filter
          (fun c2 => c2 ∈ venueColsFrom header))).Nodup :=
      List.Nodup.filter _ hvnd
    have hdisj : ∀ x ∈ stackPreference.filter
        (fun c => c ∈ venueColsFrom header),
        x ∉ (venueColsFrom header).filter
          (fun c => c ∉ stackPreference.filter
            (fun c2 => c2 ∈ venueColsFrom header)) := by
      intro x hx hmem
      rw [List.mem_filter] at hmem
      have := hmem.2
      simp only [decide_eq_true_eq] at this
      exact this hx
    have happnd : (stackPreference.filter (fun c => c ∈ venueColsFrom header)
        ++ (venueColsFrom header).filter
            (fun c => c ∉ stackPreference.filter
              (fun c2 => c2 ∈ venueColsFrom header))).Nodup :=
      List.Nodup.append hpnd hrnd (List.disjoint_left.mpr hdisj)
    apply (List.perm_ext_iff_of_nodup happnd hvnd).mpr
    intro a
    constructor
    · intro hmem
      rcases List.mem_append.mp hmem with hl | hr
      · exact of_decide_eq_true (List.mem_filter.mp hl).2
      · exact (List.mem_filter.mp hr).1
    · intro hmem
      by_cases hp : a ∈ stackPreference.filter
          (fun c => c ∈ venueColsFrom header)
      · exact List.mem_append.mpr (Or.inl hp)
      · refine List.mem_append.mpr (Or.inr ?_)
        refine List.mem_filter.mpr ⟨hmem, ?_⟩
        simp only [decide_eq_true_eq]
        exact hp

/-- Witness for `c8_venue_columns_and_order` on the header
`[timestamp, tvl, short_eth, buy_eth, aux]`: the computed stacking order
is `[buy_eth, short_eth, aux]` and it is a permutation of the venue
columns. -/
theorem c8_venue_columns_and_order_witness :
    orderVenueCols (venueColsFrom
        ["timestamp", "tvl", "short_eth", "buy_eth", "aux"])
      = ["buy_eth", "short_eth", "aux"]
      ∧ (orderVenueCols (venueColsFrom
          ["timestamp", "tvl", "short_eth", "buy_eth", "aux"])).Perm
        (venueColsFrom ["timestamp", "tvl", "short_eth", "buy_eth", "aux"]) :=
  ⟨by decide,
   (c8_venue_columns_and_order
     ["timestamp", "tvl", "short_eth", "buy_eth", "aux"] (by decide)).2.2⟩

/-- C6 counterexample: a backtest JSON with `monte_carlo` absent but an
empty historical trajectory makes the pipeline fail (IndexError at
`tvls[0]`) and produce no artifacts at all — so the claim does not hold
for every `monte_carlo: null` input. -/
theorem c6_counterexample :
    emptyTrajData.monteCarlo = none
      ∧ mainArtifacts emptyTrajData = Except.error TrajErr.indexError :=
  ⟨rfl, rfl⟩

/-- C6 (amended): for every backtest JSON without Monte Carlo data whose
historical trajectory is non-empty and starts at a non-zero TVL, the
pipeline succeeds with exactly the artifacts `trajectory.png` and
`pnl_breakdown.png`, draws no confidence bands, and never attempts
`mc_distributions.png`. -/
theorem c6_no_mc_two_artifacts (data : BacktestData)
    (hmc : data.monteCarlo = none) (p : TrajPoint) (rest : List TrajPoint)
    (htraj : data.historical.trajectory = p :: rest) (h0 : p.tvl ≠ 0) :
    mainArtifacts data = Except.ok ["trajectory.png", "pnl_breakdown.png"]
      ∧ trajectoryBands data = none
      ∧ plot_mc_distribution data = none := by
  have hb : trajectoryBands data = none := by
    rw [trajectoryBands, hmc]
  have hm : plot_mc_distribution data = none := by
    rw [plot_mc_distribution, hmc]
  have hlast : ∃ z, (p.tvl :: rest.map TrajPoint.tvl).getLast? = some z := by
    rw [Option.isSome_iff_exists.symm, List.getLast?_isSome]
    simp
  obtain ⟨y, hy⟩ := hlast
  refine ⟨?_, hb, hm⟩
  rw [mainArtifacts, plot_trajectory, htraj]
  simp only [List.map_cons, List.head?_cons, hy, hm]
  simp only [trajPnlPct, if_neg h0]
  rfl

/-- Witness for `c6_no_mc_two_artifacts` on the demo backtest JSON
without Monte Carlo data. -/
theorem c6_no_mc_two_artifacts_witness :
    mainArtifacts demoDataNoMC
        = Except.ok ["trajectory.png", "pnl_breakdown.png"]
      ∧ trajectoryBands demoDataNoMC = none
      ∧ plot_mc_distribution demoDataNoMC = none :=
  c6_no_mc_two_artifacts demoDataNoMC rfl ⟨0, 1000⟩
    [⟨3600, 1100⟩, ⟨7200, 1050⟩] rfl (by norm_num)

/-- C9: a `monte_carlo` object with an empty `simulations` list behaves
exactly like an absent one: `plot_mc_distribution` writes nothing, no
confidence bands are drawn, and the whole pipeline produces the same
result as with `monte_carlo` removed (in particular no error comes from
the Monte Carlo path). -/
theorem c9_empty_sims_like_absent (data : BacktestData) (mc : MonteCarlo)
    (hmc : data.monteCarlo = some mc) (hsims : mc.simulations = []) :
    plot_mc_distribution data = none
      ∧ trajectoryBands data = none
      ∧ mainArtifacts data
          = mainArtifacts { data with monteCarlo := none } := by
  have hmcdist : plot_mc_distribution data = none := by
    rw [plot_mc_distribution, hmc]
    simp [hsims]
  have hb : trajectoryBands data = none := by
    rw [trajectoryBands, hmc]
    simp [hsims]
  have hb2 : trajectoryBands { data with monteCarlo := none } = none := rfl
  have hpt : plot_trajectory data
      = plot_trajectory { data with monteCarlo := none } := by
    simp only [plot_trajectory, hb, hb2]
  refine ⟨hmcdist, hb, ?_⟩
  rw [mainArtifacts, mainArtifacts, ← hpt, hmcdist]
  have hmcdist2 : plot_mc_distribution { data with monteCarlo := none }
      = none := rfl
  rw [hmcdist2]
  cases plot_trajectory data <;> rfl

/-- Witness for `c9_empty_sims_like_absent` on the demo backtest JSON
with an empty simulation list. -/
theorem c9_empty_sims_like_absent_witness :
    plot_mc_distribution demoDataEmptyMC = none
      ∧ trajectoryBands demoDataEmptyMC = none
      ∧ mainArtifacts demoDataEmptyMC
          = mainArtifacts { demoDataEmptyMC with monteCarlo := none } :=
  c9_empty_sims_like_absent demoDataEmptyMC
    { n_simulations := 0, simulations := [] } rfl rfl

/-- C10: `plot_trajectory` fails with the IndexError of the `tvls[0]`
access — producing no artifact — exactly when the historical trajectory
is the empty sequence. -/
theorem c10_index_error_iff_empty_traj (data : BacktestData) :
    plot_trajectory data = Except.error TrajErr.indexError
      ↔ data.historical.trajectory = [] := by
  constructor
  · intro h
    by_contra hne
    obtain ⟨p, rest, hpr⟩ := List.exists_cons_of_ne_nil hne
    have hlast : ∃ z, (p.tvl :: rest.map TrajPoint.tvl).getLast? = some z := by
      rw [Option.isSome_iff_exists.symm, List.getLast?_isSome]
      simp
    obtain ⟨y, hy⟩ := hlast
    rw [plot_trajectory, hpr] at h
    simp only [List.map_cons, List.head?_cons, hy] at h
    by_cases h0 : p.tvl = 0
    · simp only [trajPnlPct, if_pos h0] at h
      exact TrajErr.noConfusion (Except.error.inj h)
    · simp only [trajPnlPct, if_neg h0] at h
      exact Except.noConfusion h
  · intro h
    rw [plot_trajectory, h]
    rfl

/-- Witness for `c10_index_error_iff_empty_traj` on the fixture with an
empty historical trajectory. -/
theorem c10_index_error_iff_empty_traj_witness :
    plot_trajectory emptyTrajData = Except.error TrajErr.indexError :=
  (c10_index_error_iff_empty_traj emptyTrajData).mpr rfl

end DefiFlow
